import Mathlib

/-!
Shallow embedding of src/banking_system.py: the BankAccount class, the
BankingSystem ledger, and the operations the specification claims talk
about.  Amounts are modelled as rationals (the Python code works on
numbers read with float; no claim depends on float rounding).  The
ambient clock (datetime.now) is modelled as a natural number supplied
per call: the id generator formats it at second resolution, so two
calls inside the same second receive the same value.  Python raises
ValueError with a message; errors are modelled as an enumeration whose
constructors follow the specification taxonomy and carry the exact
message string of the corresponding raise site.  File persistence
(_save_data and _load_data) is external I/O outside the embedding; the
ledger state is the accounts mapping, modelled as an insertion-ordered
association list with Python dict assignment semantics.
-/

set_option autoImplicit false

namespace Banking

/-- Error taxonomy; each constructor carries the Python message of the raise site. -/
inductive BankError where
  | invalidInput (msg : String)
  | invalidAmount (msg : String)
  | insufficientFunds (msg : String)
  | notFound (msg : String)
  | unauthorized (msg : String)
  deriving DecidableEq, Repr

/-- One entry of transaction_history: the dict built by _record_transaction.
The other_account key is present only for transfer records. -/
structure Transaction where
  date : Nat
  type : String
  amount : ℚ
  balance_after : ℚ
  other_account : Option String
  deriving DecidableEq, Repr

/-- The BankAccount object state. -/
structure BankAccount where
  account_holder_name : String
  account_number : String
  account_type : String
  balance : ℚ
  transaction_history : List Transaction
  password : Option String
  deriving DecidableEq, Repr

/-- Python truthiness of an optional string: None and the empty string are falsy. -/
def pyTruthy : Option String → Bool
  | none => false
  | some s => !(s == "")

/-- BankAccount._generate_account_number: ACC followed by the clock formatted
at second resolution (strftime of pattern YYYYmmddHHMMSS). -/
def generate_account_number (now : Nat) : String :=
  "ACC" ++ toString now

/-- BankAccount._record_transaction: append one record; the other_account key
is only added when the argument is truthy. -/
def BankAccount.record_transaction (a : BankAccount) (transaction_type : String)
    (amount : ℚ) (other_account : Option String) (now : Nat) : BankAccount :=
  { a with transaction_history := a.transaction_history ++
      [{ date := now
         type := transaction_type
         amount := amount
         balance_after := a.balance
         other_account := if pyTruthy other_account then other_account else none }] }

/-- BankAccount.__init__: fresh account; a strictly positive initial balance is
recorded as one deposit transaction. -/
def BankAccount.init (account_holder_name account_type : String) (initial_balance : ℚ)
    (password : Option String) (now : Nat) : BankAccount :=
  let a : BankAccount :=
    { account_holder_name := account_holder_name
      account_number := generate_account_number now
      account_type := account_type
      balance := initial_balance
      transaction_history := []
      password := password }
  if 0 < initial_balance then a.record_transaction "deposit" initial_balance none now else a

/-- BankAccount.deposit. -/
def BankAccount.deposit (a : BankAccount) (amount : ℚ) (now : Nat) :
    Except BankError BankAccount :=
  if amount ≤ 0 then
    .error (.invalidAmount "Deposit amount must be positive")
  else
    let a := { a with balance := a.balance + amount }
    .ok (a.record_transaction "deposit" amount none now)

/-- BankAccount.withdraw. -/
def BankAccount.withdraw (a : BankAccount) (amount : ℚ) (now : Nat) :
    Except BankError BankAccount :=
  if amount ≤ 0 then
    .error (.invalidAmount "Withdrawal amount must be positive")
  else if a.balance < amount then
    .error (.insufficientFunds "Insufficient funds")
  else
    let a := { a with balance := a.balance - amount }
    .ok (a.record_transaction "withdrawal" amount none now)

/-- BankAccount.transfer when the target is a distinct object: returns the
updated source and target. -/
def BankAccount.transfer (a : BankAccount) (amount : ℚ) (target : BankAccount)
    (now : Nat) : Except BankError (BankAccount × BankAccount) :=
  if amount ≤ 0 then
    .error (.invalidAmount "Transfer amount must be positive")
  else if a.balance < amount then
    .error (.insufficientFunds "Insufficient funds for transfer")
  else
    let a1 := ({ a with balance := a.balance - amount }).record_transaction
      "transfer_out" amount (some target.account_number) now
    let t1 := ({ target with balance := target.balance + amount }).record_transaction
      "transfer_in" amount (some a.account_number) now
    .ok (a1, t1)

/-- BankAccount.transfer when target_account is the same Python object as self
(the aliased call the ledger makes for a self transfer): the debit, the
transfer_out record, the credit and the transfer_in record all hit the one
object in that order. -/
def BankAccount.transferSelf (a : BankAccount) (amount : ℚ) (now : Nat) :
    Except BankError BankAccount :=
  if amount ≤ 0 then
    .error (.invalidAmount "Transfer amount must be positive")
  else if a.balance < amount then
    .error (.insufficientFunds "Insufficient funds for transfer")
  else
    let a1 := ({ a with balance := a.balance - amount }).record_transaction
      "transfer_out" amount (some a.account_number) now
    let a2 := ({ a1 with balance := a1.balance + amount }).record_transaction
      "transfer_in" amount (some a.account_number) now
    .ok a2

/-- Result record of get_summary_statistics. -/
structure SummaryStatistics where
  total_deposits : ℚ
  total_withdrawals : ℚ
  average_deposit : ℚ
  average_withdrawal : ℚ
  total_transactions : Nat
  deriving DecidableEq, Repr

/-- BankAccount.get_summary_statistics: np.sum is the list sum and np.mean the
sum divided by the length. -/
def BankAccount.get_summary_statistics (a : BankAccount) : SummaryStatistics :=
  if a.transaction_history = [] then
    { total_deposits := 0
      total_withdrawals := 0
      average_deposit := 0
      average_withdrawal := 0
      total_transactions := 0 }
  else
    let deposits := (a.transaction_history.filter
      (fun t => t.type == "deposit" || t.type == "transfer_in")).map Transaction.amount
    let withdrawals := (a.transaction_history.filter
      (fun t => t.type == "withdrawal" || t.type == "transfer_out")).map Transaction.amount
    { total_deposits := if deposits = [] then 0 else deposits.sum
      total_withdrawals := if withdrawals = [] then 0 else withdrawals.sum
      average_deposit := if deposits = [] then 0 else deposits.sum / deposits.length
      average_withdrawal := if withdrawals = [] then 0 else withdrawals.sum / withdrawals.length
      total_transactions := a.transaction_history.length }

/-- Python dict lookup on the insertion-ordered accounts mapping (keys are
unique, so first match is the binding). -/
def dictGet (d : List (String × BankAccount)) (k : String) : Option BankAccount :=
  match d with
  | [] => none
  | (k1, v1) :: rest => if k1 = k then some v1 else dictGet rest k

/-- Python dict assignment: replace in place when the key exists, append otherwise. -/
def dictSet (d : List (String × BankAccount)) (k : String) (v : BankAccount) :
    List (String × BankAccount) :=
  match d with
  | [] => [(k, v)]
  | (k1, v1) :: rest => if k1 = k then (k, v) :: rest else (k1, v1) :: dictSet rest k v

/-- The BankingSystem ledger state: the accounts mapping.  The data_file and
the load and save calls are file I/O outside the embedding. -/
structure BankingSystem where
  accounts : List (String × BankAccount)
  deriving DecidableEq, Repr

/-- BankingSystem.create_account: validate, build the account, store it under
its generated number, return the number. -/
def BankingSystem.create_account (s : BankingSystem) (account_holder_name account_type : String)
    (initial_balance : ℚ) (password : Option String) (now : Nat) :
    Except BankError (BankingSystem × String) :=
  if account_holder_name = "" ∨ account_type = "" then
    .error (.invalidInput "Account holder name and type are required")
  else if initial_balance < 0 then
    .error (.invalidInput "Initial balance cannot be negative")
  else
    let account := BankAccount.init account_holder_name account_type initial_balance password now
    .ok ({ accounts := dictSet s.accounts account.account_number account },
         account.account_number)

/-- BankingSystem.get_account with its optional password check. -/
def BankingSystem.get_account (s : BankingSystem) (account_number : String)
    (password : Option String) : Except BankError BankAccount :=
  match dictGet s.accounts account_number with
  | none => .error (.notFound "Account not found")
  | some account =>
    if pyTruthy account.password ∧ account.password ≠ password then
      .error (.unauthorized "Invalid password")
    else
      .ok account

/-- BankingSystem.deposit: resolves the account through get_account passing no
password, delegates, stores the mutated account. -/
def BankingSystem.deposit (s : BankingSystem) (account_number : String) (amount : ℚ)
    (now : Nat) : Except BankError BankingSystem :=
  match s.get_account account_number none with
  | .error e => .error e
  | .ok account =>
    match account.deposit amount now with
    | .error e => .error e
    | .ok account => .ok { accounts := dictSet s.accounts account_number account }

/-- BankingSystem.withdraw: resolves through get_account passing no password. -/
def BankingSystem.withdraw (s : BankingSystem) (account_number : String) (amount : ℚ)
    (now : Nat) : Except BankError BankingSystem :=
  match s.get_account account_number none with
  | .error e => .error e
  | .ok account =>
    match account.withdraw amount now with
    | .error e => .error e
    | .ok account => .ok { accounts := dictSet s.accounts account_number account }

/-- BankingSystem.transfer: membership checks on the raw mapping (no password
check at all), then the account-level transfer.  When the two numbers are the
same key, the Python code binds both names to one object, so the aliased
semantics of BankAccount.transferSelf applies. -/
def BankingSystem.transfer (s : BankingSystem) (from_account_number to_account_number : String)
    (amount : ℚ) (now : Nat) : Except BankError BankingSystem :=
  match dictGet s.accounts from_account_number with
  | none => .error (.notFound "Source account not found")
  | some from_account =>
    match dictGet s.accounts to_account_number with
    | none => .error (.notFound "Target account not found")
    | some to_account =>
      if from_account_number = to_account_number then
        match from_account.transferSelf amount now with
        | .error e => .error e
        | .ok a => .ok { accounts := dictSet s.accounts from_account_number a }
      else
        match from_account.transfer amount to_account now with
        | .error e => .error e
        | .ok (a, b) =>
          .ok { accounts :=
            dictSet (dictSet s.accounts from_account_number a) to_account_number b }

/-- One operation touching a single account: a deposit, a withdrawal, or
participation in a transfer as the source or as the target. -/
inductive AccountOp where
  | dep (amount : ℚ) (now : Nat)
  | wdr (amount : ℚ) (now : Nat)
  | tout (amount : ℚ) (target : BankAccount) (now : Nat)
  | tin (amount : ℚ) (source : BankAccount) (now : Nat)

/-- Apply one operation to the account it touches: for a transfer, the touched
account is the updated source respectively target returned by transfer. -/
def applyOp (a : BankAccount) : AccountOp → Except BankError BankAccount
  | .dep amount now => a.deposit amount now
  | .wdr amount now => a.withdraw amount now
  | .tout amount target now =>
    match a.transfer amount target now with
    | .error e => .error e
    | .ok (a1, _) => .ok a1
  | .tin amount source now =>
    match source.transfer amount a now with
    | .error e => .error e
    | .ok (_, b1) => .ok b1

/-- Run a sequence of operations; the result is ok only when every step succeeds. -/
def runOps (a : BankAccount) : List AccountOp → Except BankError BankAccount
  | [] => .ok a
  | op :: ops =>
    match applyOp a op with
    | .error e => .error e
    | .ok a1 => runOps a1 ops

/-- The signed contribution of one record: credits count positive, debits negative. -/
def signedAmount (t : Transaction) : ℚ :=
  if t.type = "deposit" ∨ t.type = "transfer_in" then t.amount else -t.amount

/-- Sum of the signed transaction amounts in log order. -/
def signedSum (log : List Transaction) : ℚ :=
  (log.map signedAmount).sum

/-- Sum of the amounts of the deposit operations in a sequence. -/
def depositTotal (ops : List AccountOp) : ℚ :=
  (ops.map (fun op => match op with | .dep q _ => q | _ => 0)).sum

/-- Sum of the amounts of the withdrawal operations in a sequence. -/
def withdrawTotal (ops : List AccountOp) : ℚ :=
  (ops.map (fun op => match op with | .wdr q _ => q | _ => 0)).sum

/-- Whether an operation is a plain deposit or withdrawal call. -/
def isDepOrWdr : AccountOp → Bool
  | .dep _ _ => true
  | .wdr _ _ => true
  | .tout _ _ _ => false
  | .tin _ _ _ => false

/-- Statistics as the specification words them: totals are sums over the two
kind classes, averages are arithmetic means with 0 for an empty class, and the
count is the log length. -/
def specStatistics (log : List Transaction) : SummaryStatistics :=
  let deposits := (log.filter
    (fun t => t.type == "deposit" || t.type == "transfer_in")).map Transaction.amount
  let withdrawals := (log.filter
    (fun t => t.type == "withdrawal" || t.type == "transfer_out")).map Transaction.amount
  { total_deposits := deposits.sum
    total_withdrawals := withdrawals.sum
    average_deposit := if deposits = [] then 0 else deposits.sum / deposits.length
    average_withdrawal := if withdrawals = [] then 0 else withdrawals.sum / withdrawals.length
    total_transactions := log.length }

/-- A concrete account whose log is deposit 100, withdrawal 30, deposit 50. -/
def statsExampleAccount : BankAccount :=
  { account_holder_name := "Alice"
    account_number := "ACC1"
    account_type := "savings"
    balance := 120
    transaction_history :=
      [ { date := 1, type := "deposit", amount := 100, balance_after := 100,
          other_account := none }
      , { date := 2, type := "withdrawal", amount := 30, balance_after := 70,
          other_account := none }
      , { date := 3, type := "deposit", amount := 50, balance_after := 120,
          other_account := none } ]
    password := none }

/-- The end-to-end scenario of the specification: an account opened with 1000,
deposit 500, withdraw 200, a second account opened with 0, transfer 300 to it,
at five distinct clock seconds. -/
def endToEndScenario : Except BankError BankingSystem := do
  let r1 ← BankingSystem.create_account ⟨[]⟩ "Alice" "savings" 1000 none 1
  let s2 ← r1.1.deposit r1.2 500 2
  let s3 ← s2.withdraw r1.2 200 3
  let r4 ← s3.create_account "Bob" "savings" 0 none 4
  r4.1.transfer r1.2 r4.2 300 5

/-- State of the first scenario account right after creation with 1000. -/
def scenarioAlice1 : BankAccount :=
  ⟨"Alice", "ACC1", "savings", 1000, [⟨1, "deposit", 1000, 1000, none⟩], none⟩

/-- State of the first scenario account after the deposit of 500. -/
def scenarioAlice2 : BankAccount :=
  ⟨"Alice", "ACC1", "savings", 1500,
    [⟨1, "deposit", 1000, 1000, none⟩, ⟨2, "deposit", 500, 1500, none⟩], none⟩

/-- State of the first scenario account after the withdrawal of 200. -/
def scenarioAlice3 : BankAccount :=
  ⟨"Alice", "ACC1", "savings", 1300,
    [⟨1, "deposit", 1000, 1000, none⟩, ⟨2, "deposit", 500, 1500, none⟩,
     ⟨3, "withdrawal", 200, 1300, none⟩], none⟩

/-- Final state of the first scenario account after the transfer of 300. -/
def scenarioAlice4 : BankAccount :=
  ⟨"Alice", "ACC1", "savings", 1000,
    [⟨1, "deposit", 1000, 1000, none⟩, ⟨2, "deposit", 500, 1500, none⟩,
     ⟨3, "withdrawal", 200, 1300, none⟩, ⟨5, "transfer_out", 300, 1000, some "ACC4"⟩], none⟩

/-- State of the second scenario account right after creation with 0. -/
def scenarioBob1 : BankAccount :=
  ⟨"Bob", "ACC4", "savings", 0, [], none⟩

/-- Final state of the second scenario account after receiving 300. -/
def scenarioBob2 : BankAccount :=
  ⟨"Bob", "ACC4", "savings", 300, [⟨5, "transfer_in", 300, 300, some "ACC1"⟩], none⟩

/-! Helper lemmas about the association-list mapping and the signed log sum. -/

theorem dictGet_dictSet_self (d : List (String × BankAccount)) (k : String) (v : BankAccount) :
    dictGet (dictSet d k v) k = some v := by
  induction d with
  | nil => simp [dictGet, dictSet]
  | cons p rest ih =>
    obtain ⟨k1, v1⟩ := p
    by_cases h : k1 = k
    · simp [dictSet, h, dictGet]
    · simpa [dictSet, h, dictGet] using ih

theorem dictGet_dictSet_ne (d : List (String × BankAccount)) (k k2 : String) (v : BankAccount)
    (h : k ≠ k2) : dictGet (dictSet d k v) k2 = dictGet d k2 := by
  induction d with
  | nil => simp [dictGet, dictSet, h]
  | cons p rest ih =>
    obtain ⟨k1, v1⟩ := p
    by_cases h1 : k1 = k
    · subst h1
      simp [dictSet, dictGet, h]
    · by_cases h2 : k1 = k2
      · simp [dictSet, dictGet, h1, h2, Ne.symm h]
      · simpa [dictSet, dictGet, h1, h2] using ih

theorem signedSum_append (l1 l2 : List Transaction) :
    signedSum (l1 ++ l2) = signedSum l1 + signedSum l2 := by
  simp [signedSum]

/-- C4: called with a non-positive amount, deposit, withdraw and transfer raise
InvalidAmount; called with a positive amount exceeding the balance, withdraw
and transfer raise InsufficientFunds.  In each error case the operation returns
no updated account: the pre-state accounts are untouched, so balance and log
length are unchanged. -/
theorem c4_invalid_amount_and_insufficient_funds
    (a target : BankAccount) (amount : ℚ) (now : Nat) :
    (amount ≤ 0 →
      a.deposit amount now = .error (.invalidAmount "Deposit amount must be positive") ∧
      a.withdraw amount now = .error (.invalidAmount "Withdrawal amount must be positive") ∧
      a.transfer amount target now = .error (.invalidAmount "Transfer amount must be positive")) ∧
    (0 < amount → a.balance < amount →
      a.withdraw amount now = .error (.insufficientFunds "Insufficient funds") ∧
      a.transfer amount target now = .error (.insufficientFunds "Insufficient funds for transfer")) := by
  constructor
  · intro h
    refine ⟨?_, ?_, ?_⟩ <;>
      simp [BankAccount.deposit, BankAccount.withdraw, BankAccount.transfer, h]
  · intro h1 h2
    constructor <;>
      simp [BankAccount.withdraw, BankAccount.transfer, h2, not_le.mpr h1]

/-- Witness for C4 at concrete inputs: a deposit of -1 and, on a balance of 3,
a withdrawal of 5. -/
theorem c4_witness :
    (BankAccount.init "A" "savings" 3 none 0).deposit (-1) 1 =
      .error (.invalidAmount "Deposit amount must be positive") ∧
    (BankAccount.init "A" "savings" 3 none 0).withdraw 5 1 =
      .error (.insufficientFunds "Insufficient funds") :=
  ⟨(((c4_invalid_amount_and_insufficient_funds (BankAccount.init "A" "savings" 3 none 0)
      (BankAccount.init "B" "savings" 0 none 0) (-1) 1).1 (by norm_num))).1,
   (((c4_invalid_amount_and_insufficient_funds (BankAccount.init "A" "savings" 3 none 0)
      (BankAccount.init "B" "savings" 0 none 0) 5 1).2 (by norm_num)
        (by norm_num [BankAccount.init, BankAccount.record_transaction]))).1⟩

/-- C5: the id generator formats the clock at second resolution, so two
create_account calls inside the same second produce the same id and the second
account overwrites the first in the mapping — the code violates the claimed
uniqueness.  Evaluated here at the failing input: two creations at clock
value 100. -/
theorem c5_same_second_id_collision :
    ∃ s1 s2 : BankingSystem,
      BankingSystem.create_account ⟨[]⟩ "Alice" "savings" 0 none 100 = .ok (s1, "ACC100") ∧
      s1.create_account "Bob" "savings" 0 none 100 = .ok (s2, "ACC100") ∧
      s2.accounts.length = 1 :=
  ⟨_, _, rfl, rfl, rfl⟩

theorem if_empty_sum (l : List ℚ) : (if l = [] then (0 : ℚ) else l.sum) = l.sum := by
  split <;> simp_all

theorem init_account_number (n t : String) (i : ℚ) (p : Option String) (now : Nat) :
    (BankAccount.init n t i p now).account_number = generate_account_number now := by
  unfold BankAccount.init BankAccount.record_transaction
  split <;> rfl

theorem init_balance (n t : String) (i : ℚ) (p : Option String) (now : Nat) :
    (BankAccount.init n t i p now).balance = i := by
  unfold BankAccount.init BankAccount.record_transaction
  split <;> rfl

/-- C7: get_summary_statistics is a pure function of the transaction log,
equal to the statistics the specification describes (class sums, arithmetic
means with 0 on an empty class, log length), and on the log deposit 100,
withdrawal 30, deposit 50 it returns 150, 30, 75, 30 and 3. -/
theorem c7_statistics_pure_of_log :
    (∀ a : BankAccount, a.get_summary_statistics = specStatistics a.transaction_history) ∧
    statsExampleAccount.get_summary_statistics =
      { total_deposits := 150
        total_withdrawals := 30
        average_deposit := 75
        average_withdrawal := 30
        total_transactions := 3 } := by
  constructor
  · intro a
    unfold BankAccount.get_summary_statistics specStatistics
    by_cases h : a.transaction_history = []
    · simp [h]
    · simp only [if_neg h, SummaryStatistics.mk.injEq]
      exact ⟨if_empty_sum _, if_empty_sum _, trivial, trivial, trivial⟩
  · simp [statsExampleAccount, BankAccount.get_summary_statistics,
      SummaryStatistics.mk.injEq]
    norm_num

/-- Counterexample to C8 as stated: the ledger accepts the account type
checking, which is neither savings nor current, instead of failing with
InvalidInput. -/
theorem c8_counterexample :
    ("checking" ≠ "savings" ∧ "checking" ≠ "current") ∧
    ∃ s : BankingSystem,
      BankingSystem.create_account ⟨[]⟩ "Bob" "checking" 0 none 7 = .ok (s, "ACC7") :=
  ⟨by decide, _, rfl⟩

/-- C8 amended: create_account requires a non-empty holder name, a non-empty
account type (membership in savings or current is checked only by the menu
layer, not by the ledger), and a non-negative initial balance; violations fail
with InvalidInput and produce no state, and valid inputs succeed, store the new
account and return its generated id. -/
theorem c8_create_account_validation (s : BankingSystem) (name ty : String)
    (initial : ℚ) (pw : Option String) (now : Nat) :
    (name = "" ∨ ty = "" →
      s.create_account name ty initial pw now =
        .error (.invalidInput "Account holder name and type are required")) ∧
    (name ≠ "" → ty ≠ "" → initial < 0 →
      s.create_account name ty initial pw now =
        .error (.invalidInput "Initial balance cannot be negative")) ∧
    (name ≠ "" → ty ≠ "" → 0 ≤ initial →
      ∃ s2, s.create_account name ty initial pw now = .ok (s2, generate_account_number now) ∧
        dictGet s2.accounts (generate_account_number now) =
          some (BankAccount.init name ty initial pw now)) := by
  refine ⟨?_, ?_, ?_⟩
  · intro h
    simp [BankingSystem.create_account, h]
  · intro h1 h2 h3
    simp [BankingSystem.create_account, h1, h2, h3]
  · intro h1 h2 h3
    have hnum := init_account_number name ty initial pw now
    refine ⟨⟨dictSet s.accounts (generate_account_number now)
      (BankAccount.init name ty initial pw now)⟩, ?_, ?_⟩
    · simp [BankingSystem.create_account, h1, h2, not_lt.mpr h3, hnum]
    · exact dictGet_dictSet_self _ _ _

/-- Witness for C8 amended at concrete inputs: empty name, negative balance,
and a valid creation. -/
theorem c8_witness :
    (BankingSystem.create_account ⟨[]⟩ "" "savings" 0 none 1 =
      .error (.invalidInput "Account holder name and type are required")) ∧
    (BankingSystem.create_account ⟨[]⟩ "Ann" "savings" (-1) none 1 =
      .error (.invalidInput "Initial balance cannot be negative")) ∧
    ∃ s2, BankingSystem.create_account ⟨[]⟩ "Ann" "savings" 2 none 1 =
        .ok (s2, generate_account_number 1) ∧
      dictGet s2.accounts (generate_account_number 1) =
        some (BankAccount.init "Ann" "savings" 2 none 1) :=
  ⟨(c8_create_account_validation ⟨[]⟩ "" "savings" 0 none 1).1 (Or.inl rfl),
   (c8_create_account_validation ⟨[]⟩ "Ann" "savings" (-1) none 1).2.1
     (by decide) (by decide) (by norm_num),
   (c8_create_account_validation ⟨[]⟩ "Ann" "savings" 2 none 1).2.2
     (by decide) (by decide) (by norm_num)⟩

/-- C9: the end-to-end scenario leaves the first account at balance 1000 with
the four records deposit, deposit, withdrawal, transfer_out in order, and the
second account at balance 300. -/
theorem c9_end_to_end :
    ∃ s : BankingSystem, endToEndScenario = .ok s ∧
      ∃ a b : BankAccount,
        dictGet s.accounts "ACC1" = some a ∧ dictGet s.accounts "ACC4" = some b ∧
        a.balance = 1000 ∧ b.balance = 300 ∧
        a.transaction_history.map Transaction.type =
          ["deposit", "deposit", "withdrawal", "transfer_out"] ∧
        a.transaction_history.length = 4 := by
  have h1 : BankingSystem.create_account ⟨[]⟩ "Alice" "savings" 1000 none 1 =
      .ok (⟨[("ACC1", scenarioAlice1)]⟩, "ACC1") := rfl
  have h2 : BankingSystem.deposit ⟨[("ACC1", scenarioAlice1)]⟩ "ACC1" 500 2 =
      .ok ⟨[("ACC1", scenarioAlice2)]⟩ := by
    norm_num [BankingSystem.deposit, BankingSystem.get_account, dictGet, pyTruthy,
      BankAccount.deposit, BankAccount.record_transaction, dictSet,
      scenarioAlice1, scenarioAlice2]
  have h3 : BankingSystem.withdraw ⟨[("ACC1", scenarioAlice2)]⟩ "ACC1" 200 3 =
      .ok ⟨[("ACC1", scenarioAlice3)]⟩ := by
    norm_num [BankingSystem.withdraw, BankingSystem.get_account, dictGet, pyTruthy,
      BankAccount.withdraw, BankAccount.record_transaction, dictSet,
      scenarioAlice2, scenarioAlice3]
  have h4 : BankingSystem.create_account ⟨[("ACC1", scenarioAlice3)]⟩ "Bob" "savings" 0 none 4 =
      .ok (⟨[("ACC1", scenarioAlice3), ("ACC4", scenarioBob1)]⟩, "ACC4") := rfl
  have h5 : BankingSystem.transfer ⟨[("ACC1", scenarioAlice3), ("ACC4", scenarioBob1)]⟩
      "ACC1" "ACC4" 300 5 =
      .ok ⟨[("ACC1", scenarioAlice4), ("ACC4", scenarioBob2)]⟩ := by
    simp [BankingSystem.transfer, dictGet, BankAccount.transfer, pyTruthy,
      BankAccount.record_transaction, dictSet, scenarioAlice3, scenarioAlice4,
      scenarioBob1, scenarioBob2, BankingSystem.mk.injEq, BankAccount.mk.injEq,
      Transaction.mk.injEq]
    norm_num
  have hfinal : endToEndScenario = .ok ⟨[("ACC1", scenarioAlice4), ("ACC4", scenarioBob2)]⟩ := by
    simp only [endToEndScenario, bind, Except.bind, h1, h2, h3, h4, h5]
  exact ⟨_, hfinal, scenarioAlice4, scenarioBob2, rfl, rfl, rfl, rfl, rfl, rfl⟩

theorem pyTruthy_ne_none {o : Option String} (h : pyTruthy o = true) : o ≠ none := by
  cases o <;> simp [pyTruthy] at h ⊢

/-- C10: the ledger-level transfer checks membership on the raw mapping and
never consults passwords: with both ids present, a positive amount within the
source balance, it succeeds whatever credentials the accounts carry. -/
theorem c10_transfer_never_checks_credential
    (s : BankingSystem) (fromNo toNo : String) (amount : ℚ) (now : Nat)
    (a b : BankAccount)
    (ha : dictGet s.accounts fromNo = some a) (hb : dictGet s.accounts toNo = some b)
    (hpos : 0 < amount) (hle : amount ≤ a.balance) :
    ∃ s2, s.transfer fromNo toNo amount now = .ok s2 := by
  by_cases heq : fromNo = toNo
  · subst heq
    obtain rfl : a = b := by
      rw [ha] at hb
      exact Option.some.inj hb
    simp [BankingSystem.transfer, ha, BankAccount.transferSelf,
      not_le.mpr hpos, not_lt.mpr hle]
  · simp [BankingSystem.transfer, ha, hb, heq, BankAccount.transfer,
      not_le.mpr hpos, not_lt.mpr hle]

/-- Witness for C10 at a concrete ledger whose two accounts both carry
passwords: the transfer succeeds with no credential supplied. -/
theorem c10_witness :
    ∃ s2, BankingSystem.transfer
      ⟨[("ACC1", ⟨"Alice", "ACC1", "savings", 50, [], some "pw1"⟩),
        ("ACC2", ⟨"Bob", "ACC2", "savings", 0, [], some "pw2"⟩)]⟩
      "ACC1" "ACC2" 20 9 = .ok s2 :=
  c10_transfer_never_checks_credential
    ⟨[("ACC1", ⟨"Alice", "ACC1", "savings", 50, [], some "pw1"⟩),
      ("ACC2", ⟨"Bob", "ACC2", "savings", 0, [], some "pw2"⟩)]⟩
    "ACC1" "ACC2" 20 9
    ⟨"Alice", "ACC1", "savings", 50, [], some "pw1"⟩
    ⟨"Bob", "ACC2", "savings", 0, [], some "pw2"⟩
    rfl rfl (by norm_num) (by norm_num)

/-- Counterexample to C3 as stated: on an account with a credential set, the
ledger-level deposit and withdraw do enforce the credential check of
get_account (with no credential to supply) and fail instead of succeeding,
even for perfectly valid amounts. -/
theorem c3_counterexample :
    ∃ s : BankingSystem,
      BankingSystem.create_account ⟨[]⟩ "Alice" "savings" 100 (some "pw") 1 =
        .ok (s, "ACC1") ∧
      s.deposit "ACC1" 5 2 = .error (.unauthorized "Invalid password") ∧
      s.withdraw "ACC1" 5 2 = .error (.unauthorized "Invalid password") :=
  ⟨_, rfl, rfl, rfl⟩

/-- C3 amended: ledger deposit and withdraw resolve the account passing no
credential; on an account whose stored credential is absent or empty they
delegate to the Account operation and succeed for valid amounts, but on an
account with a non-empty credential set they always fail with Unauthorized. -/
theorem c3_ledger_deposit_withdraw
    (s : BankingSystem) (no : String) (amount : ℚ) (now : Nat)
    (a : BankAccount) (ha : dictGet s.accounts no = some a) :
    (pyTruthy a.password = false →
      (0 < amount → ∃ a2, a.deposit amount now = .ok a2 ∧
        s.deposit no amount now = .ok ⟨dictSet s.accounts no a2⟩) ∧
      (0 < amount → amount ≤ a.balance → ∃ a2, a.withdraw amount now = .ok a2 ∧
        s.withdraw no amount now = .ok ⟨dictSet s.accounts no a2⟩)) ∧
    (pyTruthy a.password = true →
      s.deposit no amount now = .error (.unauthorized "Invalid password") ∧
      s.withdraw no amount now = .error (.unauthorized "Invalid password")) := by
  constructor
  · intro hfalse
    constructor
    · intro hpos
      refine ⟨({ a with balance := a.balance + amount }).record_transaction
        "deposit" amount none now, ?_, ?_⟩
      · simp [BankAccount.deposit, not_le.mpr hpos]
      · simp [BankingSystem.deposit, BankingSystem.get_account, ha, hfalse,
          BankAccount.deposit, not_le.mpr hpos]
    · intro hpos hle
      refine ⟨({ a with balance := a.balance - amount }).record_transaction
        "withdrawal" amount none now, ?_, ?_⟩
      · simp [BankAccount.withdraw, not_le.mpr hpos, not_lt.mpr hle]
      · simp [BankingSystem.withdraw, BankingSystem.get_account, ha, hfalse,
          BankAccount.withdraw, not_le.mpr hpos, not_lt.mpr hle]
  · intro htrue
    constructor <;>
      simp [BankingSystem.deposit, BankingSystem.withdraw, BankingSystem.get_account,
        ha, htrue, pyTruthy_ne_none htrue]

/-- Witness for C3 amended: a deposit on a concrete account with no credential
succeeds; on a concrete account with credential pw it fails Unauthorized. -/
theorem c3_witness :
    (∃ a2, BankAccount.deposit ⟨"Ann", "ACC1", "savings", 10, [], none⟩ 5 7 = .ok a2 ∧
      BankingSystem.deposit ⟨[("ACC1", ⟨"Ann", "ACC1", "savings", 10, [], none⟩)]⟩
        "ACC1" 5 7 =
        .ok ⟨dictSet [("ACC1", ⟨"Ann", "ACC1", "savings", 10, [], none⟩)] "ACC1" a2⟩) ∧
    BankingSystem.deposit ⟨[("ACC2", ⟨"Bea", "ACC2", "savings", 10, [], some "pw"⟩)]⟩
      "ACC2" 5 7 = .error (.unauthorized "Invalid password") :=
  ⟨((c3_ledger_deposit_withdraw ⟨[("ACC1", ⟨"Ann", "ACC1", "savings", 10, [], none⟩)]⟩
      "ACC1" 5 7 ⟨"Ann", "ACC1", "savings", 10, [], none⟩ rfl).1 rfl).1 (by norm_num),
   ((c3_ledger_deposit_withdraw ⟨[("ACC2", ⟨"Bea", "ACC2", "savings", 10, [], some "pw"⟩)]⟩
      "ACC2" 5 7 ⟨"Bea", "ACC2", "savings", 10, [], some "pw"⟩ rfl).2 rfl).1⟩

/-- Counterexample to C6 as stated: an account whose stored credential is the
empty string has a credential set, yet get_account succeeds with no credential
supplied (Python truthiness treats the empty string like no password), instead
of failing with Unauthorized. -/
theorem c6_counterexample :
    ∃ (s : BankingSystem) (a : BankAccount),
      BankingSystem.create_account ⟨[]⟩ "Alice" "savings" 0 (some "") 1 =
        .ok (s, "ACC1") ∧
      s.get_account "ACC1" none = .ok a ∧
      a.password = some "" ∧ (none : Option String) ≠ some "" :=
  ⟨_, _, rfl, rfl, rfl, by simp⟩

/-- C6 amended: get_account fails NotFound on an unknown id; an account whose
credential is absent or empty accepts any supplied credential; an account with
a non-empty credential succeeds exactly on the matching credential and fails
Unauthorized on any other, including none. -/
theorem c6_get_account_credential_rules
    (s : BankingSystem) (no : String) (pw : Option String) :
    (dictGet s.accounts no = none →
      s.get_account no pw = .error (.notFound "Account not found")) ∧
    (∀ a, dictGet s.accounts no = some a →
      ((a.password = none ∨ a.password = some "") → s.get_account no pw = .ok a) ∧
      (∀ p, a.password = some p → p ≠ "" →
        (pw = some p → s.get_account no pw = .ok a) ∧
        (pw ≠ some p →
          s.get_account no pw = .error (.unauthorized "Invalid password")))) := by
  refine ⟨?_, ?_⟩
  · intro h
    simp [BankingSystem.get_account, h]
  · intro a ha
    refine ⟨?_, ?_⟩
    · rintro (hp | hp) <;> simp [BankingSystem.get_account, ha, pyTruthy, hp]
    · intro p hp hne
      refine ⟨?_, ?_⟩
      · intro hpw
        simp [BankingSystem.get_account, ha, hp, hpw]
      · intro hpw
        simp [BankingSystem.get_account, ha, hp, pyTruthy, hne, Ne.symm hpw]

/-- Witness for C6 amended at concrete inputs: unknown id, no credential,
matching credential, and a wrong credential. -/
theorem c6_witness :
    (BankingSystem.get_account ⟨[]⟩ "ACC9" none =
      .error (.notFound "Account not found")) ∧
    (BankingSystem.get_account ⟨[("ACC1", ⟨"Ann", "ACC1", "savings", 0, [], none⟩)]⟩
      "ACC1" (some "x") = .ok ⟨"Ann", "ACC1", "savings", 0, [], none⟩) ∧
    (BankingSystem.get_account ⟨[("ACC2", ⟨"Bea", "ACC2", "savings", 0, [], some "pw"⟩)]⟩
      "ACC2" (some "pw") = .ok ⟨"Bea", "ACC2", "savings", 0, [], some "pw"⟩) ∧
    (BankingSystem.get_account ⟨[("ACC2", ⟨"Bea", "ACC2", "savings", 0, [], some "pw"⟩)]⟩
      "ACC2" none = .error (.unauthorized "Invalid password")) :=
  ⟨(c6_get_account_credential_rules ⟨[]⟩ "ACC9" none).1 rfl,
   ((c6_get_account_credential_rules ⟨[("ACC1", ⟨"Ann", "ACC1", "savings", 0, [], none⟩)]⟩
      "ACC1" (some "x")).2 ⟨"Ann", "ACC1", "savings", 0, [], none⟩ rfl).1 (Or.inl rfl),
   (((c6_get_account_credential_rules
      ⟨[("ACC2", ⟨"Bea", "ACC2", "savings", 0, [], some "pw"⟩)]⟩
      "ACC2" (some "pw")).2 ⟨"Bea", "ACC2", "savings", 0, [], some "pw"⟩ rfl).2 "pw" rfl
     (by decide)).1 rfl,
   (((c6_get_account_credential_rules
      ⟨[("ACC2", ⟨"Bea", "ACC2", "savings", 0, [], some "pw"⟩)]⟩
      "ACC2" none).2 ⟨"Bea", "ACC2", "savings", 0, [], some "pw"⟩ rfl).2 "pw" rfl
     (by decide)).2 (by decide)⟩

/-- C1: a ledger transfer between two distinct resolvable accounts either
succeeds, appending exactly one transfer_out record to the source log and one
transfer_in record to the target log, both with the transferred amount and the
counterparty number, moving the balances by -amount and +amount — or it is
rejected with an error and no state is produced, leaving both logs and
balances untouched.  The nonempty account numbers hold for every account the
ledger creates, whose ids all start with ACC. -/
theorem c1_transfer_two_records_or_none
    (s : BankingSystem) (fromNo toNo : String) (amount : ℚ) (now : Nat)
    (a b : BankAccount)
    (hne : fromNo ≠ toNo)
    (ha : dictGet s.accounts fromNo = some a) (hb : dictGet s.accounts toNo = some b)
    (hidA : a.account_number ≠ "") (hidB : b.account_number ≠ "") :
    (∃ s2 a2 b2, s.transfer fromNo toNo amount now = .ok s2 ∧
      dictGet s2.accounts fromNo = some a2 ∧ dictGet s2.accounts toNo = some b2 ∧
      a2.transaction_history = a.transaction_history ++
        [⟨now, "transfer_out", amount, a.balance - amount, some b.account_number⟩] ∧
      b2.transaction_history = b.transaction_history ++
        [⟨now, "transfer_in", amount, b.balance + amount, some a.account_number⟩] ∧
      a2.balance = a.balance - amount ∧ b2.balance = b.balance + amount) ∨
    (∃ e, s.transfer fromNo toNo amount now = .error e) := by
  by_cases h1 : amount ≤ 0
  · exact .inr ⟨.invalidAmount "Transfer amount must be positive",
      by simp [BankingSystem.transfer, ha, hb, hne, BankAccount.transfer, h1]⟩
  · by_cases h2 : a.balance < amount
    · exact .inr ⟨.insufficientFunds "Insufficient funds for transfer",
        by simp [BankingSystem.transfer, ha, hb, hne, BankAccount.transfer, h1, h2]⟩
    · left
      refine ⟨⟨dictSet (dictSet s.accounts fromNo
          (({ a with balance := a.balance - amount }).record_transaction
            "transfer_out" amount (some b.account_number) now)) toNo
          (({ b with balance := b.balance + amount }).record_transaction
            "transfer_in" amount (some a.account_number) now)⟩,
        ({ a with balance := a.balance - amount }).record_transaction
          "transfer_out" amount (some b.account_number) now,
        ({ b with balance := b.balance + amount }).record_transaction
          "transfer_in" amount (some a.account_number) now,
        ?_, ?_, ?_, ?_, ?_, rfl, rfl⟩
      · simp [BankingSystem.transfer, ha, hb, hne, BankAccount.transfer, h1, h2]
      · rw [dictGet_dictSet_ne _ toNo fromNo _ (Ne.symm hne), dictGet_dictSet_self]
      · rw [dictGet_dictSet_self]
      · simp [BankAccount.record_transaction, pyTruthy, hidB]
      · simp [BankAccount.record_transaction, pyTruthy, hidA]

/-- Witness for C1 at a concrete two-account ledger and amount 7. -/
theorem c1_witness :
    (∃ s2 a2 b2,
      BankingSystem.transfer
        ⟨[("A1", ⟨"Ava", "A1", "savings", 30, [], none⟩),
          ("B1", ⟨"Ben", "B1", "savings", 5, [], none⟩)]⟩ "A1" "B1" 7 3 = .ok s2 ∧
      dictGet s2.accounts "A1" = some a2 ∧ dictGet s2.accounts "B1" = some b2 ∧
      a2.transaction_history =
        ([] : List Transaction) ++ [⟨3, "transfer_out", 7, 30 - 7, some "B1"⟩] ∧
      b2.transaction_history =
        ([] : List Transaction) ++ [⟨3, "transfer_in", 7, 5 + 7, some "A1"⟩] ∧
      a2.balance = 30 - 7 ∧ b2.balance = 5 + 7) ∨
    (∃ e, BankingSystem.transfer
        ⟨[("A1", ⟨"Ava", "A1", "savings", 30, [], none⟩),
          ("B1", ⟨"Ben", "B1", "savings", 5, [], none⟩)]⟩ "A1" "B1" 7 3 = .error e) :=
  c1_transfer_two_records_or_none
    ⟨[("A1", ⟨"Ava", "A1", "savings", 30, [], none⟩),
      ("B1", ⟨"Ben", "B1", "savings", 5, [], none⟩)]⟩ "A1" "B1" 7 3
    ⟨"Ava", "A1", "savings", 30, [], none⟩ ⟨"Ben", "B1", "savings", 5, [], none⟩
    (by decide) rfl rfl (by decide) (by decide)

theorem signedSum_singleton (t : Transaction) : signedSum [t] = signedAmount t := by
  simp [signedSum]

theorem deposit_ok_eq (a : BankAccount) (amount : ℚ) (now : Nat) (a1 : BankAccount)
    (h : a.deposit amount now = .ok a1) :
    a1 = ({ a with balance := a.balance + amount }).record_transaction
      "deposit" amount none now := by
  simp only [BankAccount.deposit] at h
  split at h
  · simp at h
  · cases h
    rfl

theorem withdraw_ok_eq (a : BankAccount) (amount : ℚ) (now : Nat) (a1 : BankAccount)
    (h : a.withdraw amount now = .ok a1) :
    a1 = ({ a with balance := a.balance - amount }).record_transaction
      "withdrawal" amount none now := by
  simp only [BankAccount.withdraw] at h
  split at h
  · simp at h
  · split at h
    · simp at h
    · cases h
      rfl

theorem transfer_ok_eq (a : BankAccount) (amount : ℚ) (target : BankAccount)
    (now : Nat) (p : BankAccount × BankAccount)
    (h : a.transfer amount target now = .ok p) :
    p = (({ a with balance := a.balance - amount }).record_transaction
          "transfer_out" amount (some target.account_number) now,
         ({ target with balance := target.balance + amount }).record_transaction
          "transfer_in" amount (some a.account_number) now) := by
  simp only [BankAccount.transfer] at h
  split at h
  · simp at h
  · split at h
    · simp at h
    · cases h
      rfl

theorem applyOp_balanced (a a2 : BankAccount) (op : AccountOp)
    (h : applyOp a op = .ok a2)
    (hinv : a.balance = signedSum a.transaction_history) :
    a2.balance = signedSum a2.transaction_history := by
  cases op with
  | dep amount now =>
    have he := deposit_ok_eq a amount now a2 h
    subst he
    simp [BankAccount.record_transaction, signedSum_append, signedSum_singleton,
      signedAmount, hinv]
  | wdr amount now =>
    have he := withdraw_ok_eq a amount now a2 h
    subst he
    simp [BankAccount.record_transaction, signedSum_append, signedSum_singleton,
      signedAmount, hinv, sub_eq_add_neg]
  | tout amount target now =>
    simp only [applyOp] at h
    cases ht : a.transfer amount target now with
    | error e => rw [ht] at h; simp at h
    | ok p =>
      rw [ht] at h
      obtain ⟨a1, t1⟩ := p
      cases h
      have he := congrArg Prod.fst (transfer_ok_eq a amount target now _ ht)
      simp only at he
      subst he
      simp [BankAccount.record_transaction, signedSum_append, signedSum_singleton,
        signedAmount, hinv, sub_eq_add_neg]
  | tin amount source now =>
    simp only [applyOp] at h
    cases ht : source.transfer amount a now with
    | error e => rw [ht] at h; simp at h
    | ok p =>
      rw [ht] at h
      obtain ⟨s1, b1⟩ := p
      cases h
      have he := congrArg Prod.snd (transfer_ok_eq source amount a now _ ht)
      simp only at he
      subst he
      simp [BankAccount.record_transaction, signedSum_append, signedSum_singleton,
        signedAmount, hinv]

theorem runOps_balanced (ops : List AccountOp) (a a2 : BankAccount)
    (h : runOps a ops = .ok a2)
    (hinv : a.balance = signedSum a.transaction_history) :
    a2.balance = signedSum a2.transaction_history := by
  induction ops generalizing a with
  | nil =>
    simp only [runOps] at h
    cases h
    exact hinv
  | cons op ops ih =>
    simp only [runOps] at h
    cases hop : applyOp a op with
    | error e => rw [hop] at h; simp at h
    | ok a1 =>
      rw [hop] at h
      exact ih a1 h (applyOp_balanced a a1 op hop hinv)

theorem init_log_balanced (n t : String) (i : ℚ) (p : Option String) (now : Nat)
    (h : 0 ≤ i) :
    (BankAccount.init n t i p now).balance =
      signedSum (BankAccount.init n t i p now).transaction_history := by
  by_cases hpos : 0 < i
  · simp [BankAccount.init, hpos, BankAccount.record_transaction, signedSum, signedAmount]
  · have hz : i = 0 := le_antisymm (not_lt.mp hpos) h
    simp [BankAccount.init, hpos, signedSum, hz]

theorem depositTotal_cons_dep (q : ℚ) (now : Nat) (ops : List AccountOp) :
    depositTotal (.dep q now :: ops) = q + depositTotal ops := by
  simp [depositTotal]

theorem depositTotal_cons_wdr (q : ℚ) (now : Nat) (ops : List AccountOp) :
    depositTotal (.wdr q now :: ops) = depositTotal ops := by
  simp [depositTotal]

theorem withdrawTotal_cons_dep (q : ℚ) (now : Nat) (ops : List AccountOp) :
    withdrawTotal (.dep q now :: ops) = withdrawTotal ops := by
  simp [withdrawTotal]

theorem withdrawTotal_cons_wdr (q : ℚ) (now : Nat) (ops : List AccountOp) :
    withdrawTotal (.wdr q now :: ops) = q + withdrawTotal ops := by
  simp [withdrawTotal]

theorem runOps_dep_wdr_balance (ops : List AccountOp) (a a2 : BankAccount)
    (h : runOps a ops = .ok a2)
    (hall : ∀ op ∈ ops, isDepOrWdr op = true) :
    a2.balance = a.balance + depositTotal ops - withdrawTotal ops := by
  induction ops generalizing a with
  | nil =>
    simp only [runOps] at h
    cases h
    simp [depositTotal, withdrawTotal]
  | cons op ops ih =>
    have hop := hall op (List.mem_cons_self _ _)
    have hrest : ∀ o ∈ ops, isDepOrWdr o = true :=
      fun o ho => hall o (List.mem_cons_of_mem _ ho)
    simp only [runOps] at h
    cases op with
    | dep amount now =>
      cases hap : applyOp a (.dep amount now) with
      | error e => rw [hap] at h; simp at h
      | ok a1 =>
        rw [hap] at h
        have hb := ih a1 h hrest
        have he := deposit_ok_eq a amount now a1 hap
        subst he
        rw [depositTotal_cons_dep, withdrawTotal_cons_dep, hb,
          BankAccount.record_transaction]
        ring
    | wdr amount now =>
      cases hap : applyOp a (.wdr amount now) with
      | error e => rw [hap] at h; simp at h
      | ok a1 =>
        rw [hap] at h
        have hb := ih a1 h hrest
        have he := withdraw_ok_eq a amount now a1 hap
        subst he
        rw [depositTotal_cons_wdr, withdrawTotal_cons_wdr, hb,
          BankAccount.record_transaction]
        ring
    | tout amount target now => simp [isDepOrWdr] at hop
    | tin amount source now => simp [isDepOrWdr] at hop

/-- C2: starting from a freshly created account with non-negative initial
balance, after any successful sequence of operations the balance equals the
signed sum of the log in order, and for sequences of plain deposit and
withdraw calls it equals the initial balance plus the deposits minus the
withdrawals. -/
theorem c2_balance_is_signed_log_sum
    (name ty : String) (initial : ℚ) (pw : Option String) (now : Nat)
    (ops : List AccountOp) (a2 : BankAccount)
    (h0 : 0 ≤ initial)
    (hrun : runOps (BankAccount.init name ty initial pw now) ops = .ok a2) :
    a2.balance = signedSum a2.transaction_history ∧
    ((∀ op ∈ ops, isDepOrWdr op = true) →
      a2.balance = initial + depositTotal ops - withdrawTotal ops) := by
  constructor
  · exact runOps_balanced ops _ a2 hrun (init_log_balanced name ty initial pw now h0)
  · intro hall
    have hbal := runOps_dep_wdr_balance ops _ a2 hrun hall
    rwa [init_balance] at hbal

/-- Witness for C2: an account opened with 10, a deposit of 5 and a withdrawal
of 3 end at balance 12, matching both sums. -/
theorem c2_witness :
    ∃ a2, runOps (BankAccount.init "A" "savings" 10 none 0)
        [.dep 5 1, .wdr 3 2] = .ok a2 ∧
      a2.balance = signedSum a2.transaction_history ∧
      a2.balance = 10 + depositTotal [.dep 5 1, .wdr 3 2] -
        withdrawTotal [.dep 5 1, .wdr 3 2] := by
  have hrun : runOps (BankAccount.init "A" "savings" 10 none 0)
      [.dep 5 1, .wdr 3 2] =
      .ok ⟨"A", "ACC0", "savings", 12,
        [⟨0, "deposit", 10, 10, none⟩, ⟨1, "deposit", 5, 15, none⟩,
         ⟨2, "withdrawal", 3, 12, none⟩], none⟩ := by
    have hacc : generate_account_number 0 = "ACC0" := rfl
    norm_num [runOps, applyOp, BankAccount.init, BankAccount.deposit,
      BankAccount.withdraw, BankAccount.record_transaction, hacc,
      BankAccount.mk.injEq, Transaction.mk.injEq]
  exact ⟨_, hrun,
    (c2_balance_is_signed_log_sum "A" "savings" 10 none 0 [.dep 5 1, .wdr 3 2] _
      (by norm_num) hrun).1,
    (c2_balance_is_signed_log_sum "A" "savings" 10 none 0 [.dep 5 1, .wdr 3 2] _
      (by norm_num) hrun).2 (by decide)⟩

end Banking
